import Mathlib

/-!
Verification development for the Econvery relevance-scoring and
paper-profiling engine (`src/lib/paper-analyzer.ts`, `src/lib/taxonomy.ts`
and the exploration-aware scoring engine).

Modelling conventions (shallow embedding):
* All JavaScript numbers that carry scores/weights are modelled as `ℚ`
  (every constant in the source is a decimal fraction and all operations
  are `+ - * / min max` and one-decimal rounding).
* `Date.now()` is modelled by an explicit `now : ℚ` parameter (epoch
  milliseconds); `paper.publication_date` is modelled as the parsed epoch
  value `Option ℚ`.
* JavaScript `Set` (insertion ordered) is modelled as a duplicate-free
  `List String` with `sAdd`; `Map` as an association list where `set` on an
  existing key replaces in place (JS `Map` keeps the original position).
* `Array.prototype.sort` with the confidence comparator is a stable sort,
  modelled by concatenating the high/medium/low sublists in order.
* The static data tables (`METHOD_TAXONOMY`, `TOPIC_TAXONOMY`,
  `INTEREST_TO_TAXONOMY`, `METHOD_TO_TAXONOMY`, `FIELD_AFFINITY`) and the
  helper predicates from `profile-options.ts` / `journals.ts` are read-only
  external inputs of the core (spec §1); they are passed as an explicit
  environment, and concrete statements instantiate them with fragments
  copied verbatim from `src/lib/taxonomy.ts`.
-/

set_option maxRecDepth 8000

namespace Econvery

/-- Characters counted as word characters by the JS regex class `\w`. -/
def isWordChar (c : Char) : Bool := c.isAlphanum || c == '_'

/-- Whitespace as matched by `\s` (the inputs we model use ASCII whitespace). -/
def isSpaceChar (c : Char) : Bool := c == ' ' || c == '\t' || c == '\n' || c == '\r'

/-- Hyphen, en-dash and em-dash, the class `[-–—]` of `normalizeText`. -/
def isDashChar (c : Char) : Bool := c == '-' || c == Char.ofNat 0x2013 || c == Char.ofNat 0x2014

/-- Collapse maximal whitespace runs to a single space (`replace(/\s+/g, " ")`).
The boolean argument records whether the previous character was whitespace. -/
def collapseSpacesAux : Bool → List Char → List Char
  | _, [] => []
  | prevSpace, c :: cs =>
    if isSpaceChar c then
      if prevSpace then collapseSpacesAux true cs
      else ' ' :: collapseSpacesAux true cs
    else c :: collapseSpacesAux false cs

/-- Drop leading and trailing spaces (after collapsing, the only whitespace
left is `' '`). -/
def trimSpaces (l : List Char) : List Char :=
  ((l.dropWhile (fun c => c == ' ')).reverse.dropWhile (fun c => c == ' ')).reverse

/-- Character-level model of `normalizeText` from `paper-analyzer.ts`:
lowercase, dashes to spaces, non-word non-space characters to spaces,
collapse whitespace, trim. -/
def normalizeChars (l : List Char) : List Char :=
  let lowered := l.map Char.toLower
  let dashed := lowered.map (fun c => if isDashChar c then ' ' else c)
  let worded := dashed.map (fun c => if isWordChar c || isSpaceChar c then c else ' ')
  trimSpaces (collapseSpacesAux false worded)

/-- The source `normalizeText`, on `String` (returns `""` on empty input). -/
def normalizeText (s : String) : String := String.mk (normalizeChars s.data)

/-- Does `text` start with `pat`? -/
def charsStartsWith : List Char → List Char → Bool
  | _, [] => true
  | [], _ :: _ => false
  | c :: cs, p :: ps => c == p && charsStartsWith cs ps

/-- Substring containment (`String.prototype.includes`): does `text` contain
`pat` as a contiguous substring? -/
def charsContains : List Char → List Char → Bool
  | [], pat => pat.isEmpty
  | c :: cs, pat => charsStartsWith (c :: cs) pat || charsContains cs pat

/-- After an occurrence of `pat` at the front of `text`, is there a word
boundary (end of string or a non-word character)? -/
def boundaryAfter (text pat : List Char) : Bool :=
  match text.drop pat.length with
  | [] => true
  | c :: _ => !isWordChar c

/-- Model of the regex test `\b<pat>\b` used for terms of length ≤ 3: an
occurrence of `pat` whose neighbours on both sides are absent or non-word
characters.  (All short signal terms in the data consist of word characters,
for which this coincides with the JS regex semantics.)  The boolean argument
records whether the current position follows a non-word character or the
start of the string. -/
def wordBoundaryMatch : List Char → List Char → Bool → Bool
  | [], _, _ => false
  | c :: cs, pat, atBoundary =>
    (atBoundary && charsStartsWith (c :: cs) pat && boundaryAfter (c :: cs) pat) ||
      wordBoundaryMatch cs pat (!isWordChar c)

/-- The source `containsTerm`: false on empty inputs; word-boundary matching
for normalized terms of length ≤ 3, plain substring containment otherwise. -/
def containsTerm (text term : String) : Bool :=
  if text.isEmpty || term.isEmpty then false
  else
    let normalizedText := normalizeChars text.data
    let normalizedTerm := normalizeChars term.data
    if normalizedTerm.length ≤ 3 then wordBoundaryMatch normalizedText normalizedTerm true
    else charsContains normalizedText normalizedTerm

/-- Result of `countTermMatches`. -/
structure TermMatches where
  count : Nat
  matched : List String
deriving DecidableEq

/-- The source `countTermMatches`: the sub-list of terms contained in the
text, together with its length. -/
def countTermMatches (text : String) (terms : List String) : TermMatches :=
  let matched := terms.filter (fun term => containsTerm text term)
  { count := matched.length, matched := matched }

example : containsTerm "The Effect of Minimum-Wage" "minimum wage" = true := by decide

example : containsTerm "individual effects" "did" = false := by decide

example : containsTerm "a did design" "did" = true := by decide

/-- Detection confidence levels (`"high" | "medium" | "low"`). -/
inductive Confidence where
  | high
  | medium
  | low
deriving DecidableEq

/-- A node of `METHOD_TAXONOMY` (`taxonomy.ts`). -/
structure MethodNode where
  id : String
  name : String
  parent : Option String := none
  siblings : Option (List String) := none
  strongSignals : List String
  moderateSignals : List String
  weakSignals : List String
  negativeSignals : Option (List String) := none
  impliedBy : Option (List String) := none
  implies : Option (List String) := none
deriving DecidableEq

/-- An entry of the `methods` list of a `PaperProfile`. -/
structure DetectedMethod where
  id : String
  name : String
  confidence : Confidence
  evidence : List String
deriving DecidableEq

/-- A taxonomy table, as an insertion-ordered association list
(`Object.entries` iterates a JS object literal in insertion order). -/
def lookupNode {α : Type} (tax : List (String × α)) (id : String) : Option α :=
  (tax.find? (fun kv => kv.1 == id)).map (fun kv => kv.2)

/-- Stable sort by the comparator `confidenceOrder[a] - confidenceOrder[b]`
(high before medium before low): a JS `Array.prototype.sort` is stable, so
the result is the three confidence classes concatenated, each in original
order. -/
def stableSortByConf {α : Type} (conf : α → Confidence) (l : List α) : List α :=
  l.filter (fun x => conf x == Confidence.high) ++
    l.filter (fun x => conf x == Confidence.medium) ++
      l.filter (fun x => conf x == Confidence.low)

/-- Per-node body of the `detectMethods` loop: the confidence/evidence
if-chain followed by the negative-signal demotion.  Returns the detected
method together with the full (untruncated) evidence list stored in the
`signals` map. -/
def detectMethodForNode (text : String) (methodId : String) (node : MethodNode) :
    Option (DetectedMethod × List String) :=
  let strongMatch := countTermMatches text node.strongSignals
  let moderateMatch := countTermMatches text node.moderateSignals
  let weakMatch := countTermMatches text node.weakSignals
  let negativeMatch :=
    match node.negativeSignals with
    | some negs => countTermMatches text negs
    | none => ({ count := 0, matched := [] } : TermMatches)
  let confEv : Option Confidence × List String :=
    if strongMatch.count ≥ 2 then (some Confidence.high, strongMatch.matched)
    else if strongMatch.count ≥ 1 then
      (if moderateMatch.count ≥ 1 then some Confidence.high else some Confidence.medium,
        strongMatch.matched ++ moderateMatch.matched)
    else if moderateMatch.count ≥ 2 then (some Confidence.medium, moderateMatch.matched)
    else if moderateMatch.count ≥ 1 ∧ weakMatch.count ≥ 1 then
      (some Confidence.low, moderateMatch.matched)
    else (none, [])
  let confidence :=
    if negativeMatch.count > 0 ∧ confEv.1 ≠ some Confidence.high then
      match confEv.1 with
      | some Confidence.medium => some Confidence.low
      | _ => none
    else confEv.1
  confidence.map (fun c =>
    ({ id := methodId, name := node.name, confidence := c, evidence := confEv.2.take 3 },
      confEv.2))

/-- Result of `detectMethods`: the deduplicated method list and the raw
signals map. -/
structure MethodDetectionResult where
  methods : List DetectedMethod
  signals : List (String × List String)
deriving DecidableEq

/-- The source `detectMethods` (`paper-analyzer.ts`): detect every taxonomy
node against `title + " " + abstract`, sort by confidence, then filter out
any detection whose taxonomy parent was also detected. -/
def detectMethods (tax : List (String × MethodNode)) (title abstract : String) :
    MethodDetectionResult :=
  let text := title ++ " " ++ abstract
  let detectedPairs := tax.filterMap (fun kv => detectMethodForNode text kv.1 kv.2)
  let detectedMethods := detectedPairs.map (fun p => p.1)
  let sorted := stableSortByConf (fun m => m.confidence) detectedMethods
  let methodIds := detectedMethods.map (fun m => m.id)
  let filteredMethods := sorted.filter (fun m =>
    match lookupNode tax m.id with
    | none => true
    | some node =>
      match node.parent with
      | none => true
      | some p => !(methodIds.contains p))
  { methods := filteredMethods,
    signals := detectedPairs.map (fun p => (p.1.id, p.2)) }

/-- The `causal_inference` node, copied from `METHOD_TAXONOMY` in
`src/lib/taxonomy.ts`. -/
def causalInferenceNode : MethodNode :=
  { id := "causal_inference",
    name := "Causal Inference",
    strongSignals := [
      "causal effect", "causal inference", "causal identification",
      "identification strategy", "causal impact", "causal estimate",
      "causal relationship"],
    moderateSignals := [
      "treatment effect", "counterfactual", "endogeneity", "selection bias",
      "omitted variable", "unobserved heterogeneity", "exogenous variation",
      "average treatment effect", "local average treatment effect"],
    weakSignals := [],
    implies := some [
      "diff_in_diff", "regression_discontinuity", "instrumental_variables",
      "rct", "synthetic_control", "event_studies", "matching"] }

/-- The `diff_in_diff` node, copied from `METHOD_TAXONOMY` in
`src/lib/taxonomy.ts` (its `parent` is `causal_inference`). -/
def diffInDiffNode : MethodNode :=
  { id := "diff_in_diff",
    name := "Difference-in-Differences",
    parent := some "causal_inference",
    siblings := some ["event_studies", "synthetic_control"],
    strongSignals := [
      "difference-in-differences", "diff-in-diff", "difference in differences",
      "differences-in-differences", "triple difference", "triple differences",
      "did design", "did estimation", "did approach", "did estimator"],
    moderateSignals := [
      "parallel trends", "pre-trends", "two-way fixed effects", "twfe",
      "staggered adoption", "staggered treatment", "staggered rollout",
      "callaway and sant\x27anna", "de chaisemartin", "sun and abraham",
      "goodman-bacon", "borusyak"],
    weakSignals := ["before and after"],
    negativeSignals := some ["discontinuity", "cutoff", "threshold", "running variable"],
    impliedBy := some ["causal_inference"],
    implies := some ["causal_inference", "panel_data"] }

/-- The fragment of `METHOD_TAXONOMY` relevant to the dedup scenario, in the
source file's insertion order (`causal_inference` is declared before
`diff_in_diff`). -/
def methodTaxonomyCI : List (String × MethodNode) :=
  [("causal_inference", causalInferenceNode), ("diff_in_diff", diffInDiffNode)]

example :
    ((detectMethods methodTaxonomyCI
        "Minimum Wages and Employment: A Difference-in-Differences Approach with Causal Identification"
        "").methods.map (fun m => m.id)) = ["causal_inference"] := by decide

/-- A contextual signal of a topic node: an ambiguous term that only counts
when one of the required companion terms co-occurs. -/
structure ContextualSignal where
  term : String
  requiredTerms : List String
deriving DecidableEq

/-- A node of `TOPIC_TAXONOMY` (`taxonomy.ts`); `requiredTerms` models the
source field `requires`. -/
structure TopicNode where
  id : String
  name : String
  parent : Option String := none
  related : List String
  adjacent : List String
  strongSignals : List String
  moderateSignals : List String
  weakSignals : List String
  contextualSignals : Option (List ContextualSignal) := none
deriving DecidableEq

/-- The `source` field of a detected topic. -/
inductive TopicSource where
  | abstract
  | concepts
  | both
deriving DecidableEq

/-- An entry of the `topics` list of a `PaperProfile`. -/
structure DetectedTopic where
  id : String
  name : String
  confidence : Confidence
  source : TopicSource
deriving DecidableEq

/-- Association-list `get` (JS `Map.prototype.get`). -/
def alistGet? {α : Type} (l : List (String × α)) (k : String) : Option α :=
  (l.find? (fun kv => kv.1 == k)).map (fun kv => kv.2)

/-- Association-list `set` (JS `Map.prototype.set`): replace in place when
the key exists (a JS `Map` keeps the original insertion position), append
otherwise. -/
def alistSet {α : Type} (l : List (String × α)) (k : String) (v : α) : List (String × α) :=
  if l.any (fun kv => kv.1 == k) then l.map (fun kv => if kv.1 == k then (k, v) else kv)
  else l ++ [(k, v)]

/-- Per-node body of the `detectTopicsFromText` loop, including the
contextual-signal bonus. -/
def detectTopicForNode (text : String) (node : TopicNode) :
    Option (Confidence × List String) :=
  let strongMatch := countTermMatches text node.strongSignals
  let moderateMatch := countTermMatches text node.moderateSignals
  let contextualBonus : Nat :=
    match node.contextualSignals with
    | none => 0
    | some sigs =>
      (sigs.filter (fun s =>
        containsTerm text s.term && s.requiredTerms.any (fun r => containsTerm text r))).length
  if strongMatch.count ≥ 2 then some (Confidence.high, strongMatch.matched)
  else if strongMatch.count ≥ 1 then
    some (if moderateMatch.count ≥ 1 ∨ contextualBonus > 0 then Confidence.high
          else Confidence.medium,
      strongMatch.matched ++ moderateMatch.matched.take 2)
  else if moderateMatch.count ≥ 3 then some (Confidence.medium, moderateMatch.matched.take 3)
  else if moderateMatch.count ≥ 2 then some (Confidence.low, moderateMatch.matched)
  else none

/-- The source `detectTopicsFromText`: detect every topic node against
`title + " " + title + " " + abstract` (the title is weighted twice). -/
def detectTopicsFromText (tax : List (String × TopicNode)) (title abstract : String) :
    List (String × Confidence × List String) :=
  let text := title ++ " " ++ title ++ " " ++ abstract
  tax.filterMap (fun kv => (detectTopicForNode text kv.2).map (fun cd => (kv.1, cd)))

/-- An externally supplied concept tag (name and confidence score). -/
structure Concept where
  name : String
  score : ℚ
deriving DecidableEq

/-- The source `detectTopicsFromConcepts`: match each concept tag against the
topic lexicons by substring containment in either direction, keeping for
each topic the detection with the highest tag score. -/
def detectTopicsFromConcepts (tax : List (String × TopicNode)) (concepts : List Concept) :
    List (String × Confidence × ℚ) :=
  concepts.foldl (fun detections concept =>
    let conceptName := normalizeChars concept.name.data
    tax.foldl (fun detections kv =>
      let node := kv.2
      let matchesStrong := node.strongSignals.any (fun s =>
        charsContains conceptName (normalizeChars s.data) ||
          charsContains (normalizeChars s.data) conceptName)
      let matchesModerate := node.moderateSignals.any (fun s =>
        charsContains conceptName (normalizeChars s.data) ||
          charsContains (normalizeChars s.data) conceptName)
      if matchesStrong || matchesModerate then
        let keep :=
          match alistGet? detections kv.1 with
          | none => true
          | some existing => decide (concept.score > existing.2)
        if keep then
          let confidence :=
            if matchesStrong ∧ concept.score > 0.5 then Confidence.high
            else if matchesStrong ∨ concept.score > 0.6 then Confidence.medium
            else Confidence.low
          alistSet detections kv.1 (confidence, concept.score)
        else detections
      else detections) detections) []

/-- The merge phase of `combineTopicDetections`, before the parent filter:
text detections first (source `"abstract"`), then concept detections, which
upgrade an agreeing non-low pair to high confidence (source `"both"`), and
finally the stable sort by confidence. -/
def mergedTopicDetections (tax : List (String × TopicNode))
    (textDetections : List (String × Confidence × List String))
    (conceptDetections : List (String × Confidence × ℚ)) : List DetectedTopic :=
  let combined := textDetections.foldl (fun acc td =>
    match lookupNode tax td.1 with
    | none => acc
    | some node =>
      alistSet acc td.1
        ({ id := td.1, name := node.name, confidence := td.2.1, source := TopicSource.abstract } :
          DetectedTopic)) []
  let combined := conceptDetections.foldl (fun acc cd =>
    match lookupNode tax cd.1 with
    | none => acc
    | some node =>
      match alistGet? acc cd.1 with
      | some existing =>
        let upgraded :=
          if existing.confidence ≠ Confidence.high ∧ cd.2.1 ≠ Confidence.low then Confidence.high
          else existing.confidence
        alistSet acc cd.1 { existing with confidence := upgraded, source := TopicSource.both }
      | none =>
        alistSet acc cd.1
          { id := cd.1, name := node.name, confidence := cd.2.1, source := TopicSource.concepts })
    combined
  stableSortByConf (fun t => t.confidence) (combined.map (fun kv => kv.2))

/-- The source `combineTopicDetections`: merge the two channels, then drop
every topic whose taxonomy parent is among the high-confidence detections. -/
def combineTopicDetections (tax : List (String × TopicNode))
    (textDetections : List (String × Confidence × List String))
    (conceptDetections : List (String × Confidence × ℚ)) : List DetectedTopic :=
  let topics := mergedTopicDetections tax textDetections conceptDetections
  let highTopicIds := (topics.filter (fun t => t.confidence == Confidence.high)).map (fun t => t.id)
  topics.filter (fun topic =>
    match lookupNode tax topic.id with
    | none => true
    | some node =>
      match node.parent with
      | none => true
      | some p => !(highTopicIds.contains p))

/-- The `inequality` node, copied from `TOPIC_TAXONOMY` in
`src/lib/taxonomy.ts`. -/
def inequalityNode : TopicNode :=
  { id := "inequality",
    name := "Inequality",
    related := ["mobility", "poverty", "redistribution", "top_incomes"],
    adjacent := ["education", "labor", "taxation", "housing", "discrimination"],
    strongSignals := [
      "inequality", "income inequality", "wealth inequality", "gini coefficient",
      "income distribution", "wealth distribution", "economic inequality",
      "wage inequality", "consumption inequality"],
    moderateSignals := [
      "top 1%", "top 10%", "income share", "wealth share",
      "distributional effects", "income gap", "wealth gap",
      "lorenz curve", "percentile"],
    weakSignals := ["unequal"] }

/-- The `mobility` node, copied from `TOPIC_TAXONOMY` in
`src/lib/taxonomy.ts` (its `parent` is `inequality`). -/
def mobilityNode : TopicNode :=
  { id := "mobility",
    name := "Social Mobility",
    parent := some "inequality",
    related := ["inequality", "education", "opportunity"],
    adjacent := ["poverty", "labor", "housing", "segregation"],
    strongSignals := [
      "social mobility", "intergenerational mobility", "economic mobility",
      "income mobility", "upward mobility", "downward mobility",
      "intergenerational transmission", "rank-rank slope"],
    moderateSignals := [
      "intergenerational elasticity", "opportunity atlas",
      "american dream", "relative mobility", "absolute mobility",
      "transmission across generations"],
    weakSignals := [] }

/-- The fragment of `TOPIC_TAXONOMY` relevant to the topic-dedup scenario,
in the source file's insertion order. -/
def topicTaxonomyIneq : List (String × TopicNode) :=
  [("inequality", inequalityNode), ("mobility", mobilityNode)]

example :
    ((combineTopicDetections topicTaxonomyIneq
        [("inequality", (Confidence.high, [])), ("mobility", (Confidence.high, []))]
        []).map (fun t => t.id)) = ["inequality"] := by decide

/-- A consumed paper record (spec §6 and the fields read by the engine).
`journal_tier = 0` plays the role of an absent tier (both uses in the source
guard it with `|| …`); `publication_date` is the parsed epoch value in
milliseconds (absent or unparseable dates are `none`). -/
structure Paper where
  title : String := ""
  abstract : String := ""
  journal_tier : Nat := 0
  cited_by_count : Nat := 0
  publication_date : Option ℚ := none
  concepts : List Concept := []
  journal_field : Option String := none
deriving DecidableEq

/-- JavaScript `Math.round`: round half toward positive infinity. -/
def jsRound (x : ℚ) : ℤ := ⌊x + 1 / 2⌋

/-- JavaScript `Math.min` on rationals, kept as an explicit conditional so
that concrete statements evaluate inside the kernel. -/
def jsMin (a b : ℚ) : ℚ := if a ≤ b then a else b

/-- JavaScript `Math.max` on rationals. -/
def jsMax (a b : ℚ) : ℚ := if a ≤ b then b else a

/-- The `tierScores[paper.journal_tier] || 0.35` lookup of
`calculateQualityScore` (`tierScores = {1: 1.0, 2: 0.8, 3: 0.6, 4: 0.35}`;
any other tier falls back to 0.35). -/
def tierScoreOf (tier : Nat) : ℚ :=
  if tier = 1 then 1.0
  else if tier = 2 then 0.8
  else if tier = 3 then 0.6
  else 0.35

/-- The descending citation bands of `calculateQualityScore`. -/
def citeScoreBase (cites : Nat) : ℚ :=
  if cites ≥ 100 then 1.0
  else if cites ≥ 50 then 0.9
  else if cites ≥ 20 then 0.75
  else if cites ≥ 10 then 0.6
  else if cites ≥ 5 then 0.45
  else if cites ≥ 1 then 0.35
  else 0.25

/-- The recency adjustment of `calculateQualityScore`: papers with fewer
than 10 citations and a publication date get their cite score floored at
0.5 when younger than 6 months and at 0.4 when younger than 12 months. -/
def citeScoreAdjusted (cites : Nat) (publicationDate : Option ℚ) (now : ℚ) : ℚ :=
  let citeScore := citeScoreBase cites
  match publicationDate with
  | none => citeScore
  | some pubTime =>
    if cites < 10 then
      let ageMonths := (now - pubTime) / (1000 * 60 * 60 * 24 * 30)
      if ageMonths < 6 then jsMax citeScore 0.5
      else if ageMonths < 12 then jsMax citeScore 0.4
      else citeScore
    else citeScore

/-- The source `calculateQualityScore` (`paper-analyzer.ts`), with
`Date.now()` passed explicitly as `now` (epoch milliseconds):
`0.6·tierScore + 0.4·citeScore` with the recency floor for papers having
fewer than 10 citations.  The source holds the three pieces in local
bindings; they are the named definitions above. -/
def calculateQualityScore (paper : Paper) (now : ℚ) : ℚ :=
  tierScoreOf paper.journal_tier * 0.6 +
    citeScoreAdjusted paper.cited_by_count paper.publication_date now * 0.4

/-- The five meta-characteristic booleans. -/
structure MetaCharacteristics where
  isEmpirical : Bool
  isTheoretical : Bool
  isReview : Bool
  isQuantitative : Bool
  isQualitative : Bool
deriving DecidableEq

/-- The source `detectMetaCharacteristics` (`paper-analyzer.ts`).  The
boolean expressions keep the JS operator grouping: `&&` binds tighter than
`||`, so in `isEmpirical` the `!isTheoretical && !isReview` guard applies
only to the generic evidentiary-language disjunct. -/
def detectMetaCharacteristics (text : String) (methods : List DetectedMethod) :
    MetaCharacteristics :=
  let methodIds := methods.map (fun m => m.id)
  let isReview :=
    methodIds.contains "meta_analysis" ||
    methodIds.contains "literature_review" ||
    methodIds.contains "synthesis" ||
    (containsTerm text "review" &&
      (containsTerm text "literature" || containsTerm text "systematic"))
  let isTheoretical :=
    methodIds.contains "game_theory" ||
    methodIds.contains "theory" ||
    containsTerm text "theorem" ||
    containsTerm text "proposition" ||
    (containsTerm text "model" && containsTerm text "prove")
  let qualMethods := ["case_study", "ethnography", "interviews", "process_tracing",
    "comparative_historical", "content_analysis", "discourse_analysis", "qualitative"]
  let isQualitative := qualMethods.any (fun m => methodIds.contains m)
  let isQuantitative :=
    !isQualitative && !isTheoretical &&
      (methodIds.contains "quantitative" ||
       containsTerm text "regression" ||
       containsTerm text "estimate" ||
       (containsTerm text "data" && containsTerm text "sample"))
  let isEmpirical :=
    isQuantitative || isQualitative ||
      ((containsTerm text "data" || containsTerm text "evidence" ||
          containsTerm text "empirical") &&
        !isTheoretical && !isReview)
  { isEmpirical := isEmpirical, isTheoretical := isTheoretical, isReview := isReview,
    isQuantitative := isQuantitative, isQualitative := isQualitative }

/-- A paper profile (`analyzePaper` output).  The source's nested
`rawSignals` record is flattened into the two fields `methodSignals` and
`topicSignals`. -/
structure PaperProfile where
  methods : List DetectedMethod
  topics : List DetectedTopic
  isEmpirical : Bool
  isTheoretical : Bool
  isReview : Bool
  isQuantitative : Bool
  isQualitative : Bool
  qualityScore : ℚ
  methodSignals : List (String × List String)
  topicSignals : List (String × List String)
deriving DecidableEq

/-- The read-only external inputs of the engine: the taxonomy data tables
(spec §1 treats them as external read-only inputs; concrete statements
instantiate them with fragments copied from `src/lib/taxonomy.ts`) and the
helper predicates of `profile-options.ts` / `journals.ts`, whose sources
are not part of the core and which no claim depends on. -/
structure Env where
  methodTaxonomy : List (String × MethodNode)
  topicTaxonomy : List (String × TopicNode)
  interestToTaxonomy : List (String × List String)
  methodToTaxonomy : List (String × List String)
  fieldAffinityTable : List (String × List (String × ℚ))
  isGeneralistField : String → Bool
  isGeneralistLevel : String → Bool
  isAdjacentField : String → Bool

/-- The source `analyzePaper` (`paper-analyzer.ts`): build the full
`PaperProfile` of a paper, independent of any user. -/
def analyzePaper (env : Env) (paper : Paper) (now : ℚ) : PaperProfile :=
  let title := paper.title
  let abstract := paper.abstract
  let text := title ++ " " ++ abstract
  let methodResult := detectMethods env.methodTaxonomy title abstract
  let textTopics := detectTopicsFromText env.topicTaxonomy title abstract
  let conceptTopics := detectTopicsFromConcepts env.topicTaxonomy paper.concepts
  let topics := combineTopicDetections env.topicTaxonomy textTopics conceptTopics
  let qualityScore := calculateQualityScore paper now
  let meta := detectMetaCharacteristics text methodResult.methods
  { methods := methodResult.methods,
    topics := topics,
    isEmpirical := meta.isEmpirical,
    isTheoretical := meta.isTheoretical,
    isReview := meta.isReview,
    isQuantitative := meta.isQuantitative,
    isQualitative := meta.isQualitative,
    qualityScore := qualityScore,
    methodSignals := methodResult.signals,
    topicSignals := textTopics.map (fun td => (td.1, td.2.2)) }

/-- Display helper `getMethodTags`: names of the high/medium confidence
methods, at most two. -/
def getMethodTags (profile : PaperProfile) : List String :=
  ((profile.methods.filter (fun m =>
      m.confidence == Confidence.high || m.confidence == Confidence.medium)).map
    (fun m => m.name)).take 2

/-- Display helper `getTopicTags`: names of the high/medium confidence
topics, at most three. -/
def getTopicTags (profile : PaperProfile) : List String :=
  ((profile.topics.filter (fun t =>
      t.confidence == Confidence.high || t.confidence == Confidence.medium)).map
    (fun t => t.name)).take 3

/-- A raw user profile (spec §6 and the fields the engine reads).  Optional
fields are `Option`; `exploration_level = none` models JS `undefined`. -/
structure UserProfile where
  name : String := ""
  academic_level : Option String := none
  primary_field : Option String := none
  interests : Option (List String) := none
  methods : Option (List String) := none
  region : Option String := none
  approach_preference : Option String := none
  experience_type : Option String := none
  include_adjacent_fields : Bool := false
  selected_adjacent_fields : Option (List String) := none
  exploration_level : Option ℚ := none
deriving DecidableEq

/-- The exploration-aware scoring weights. -/
structure ScoringWeights where
  topicMax : ℚ
  methodMax : ℚ
  discoveryMax : ℚ
  fieldAffinityMax : ℚ
  qualityBaselineMax : ℚ
  directHopWeight : ℚ
  adjacentHopWeight : ℚ
deriving DecidableEq

/-- The source `getWeights`: clamp the exploration level to `[0,1]` and
interpolate linearly between the narrow and exploratory endpoints. -/
def getWeights (explorationLevel : ℚ) : ScoringWeights :=
  let e := jsMax 0 (jsMin 1 explorationLevel)
  { topicMax := 3.0 - e * 2.0,
    methodMax := 1.5 - e * 1.0,
    discoveryMax := 0.5 + e * 2.5,
    fieldAffinityMax := 0.0 + e * 1.0,
    qualityBaselineMax := 5.0 + e * 0.5,
    directHopWeight := 0.8 - e * 0.1,
    adjacentHopWeight := 0.4 + e * 0.2 }

/-- JS `Set.prototype.add` on an insertion-ordered duplicate-free list. -/
def sAdd (s : List String) (x : String) : List String :=
  if s.contains x then s else s ++ [x]

/-- Delete every element of `ds` from `s` (`ds.forEach(t => s.delete(t))`). -/
def removeAll (s ds : List String) : List String :=
  ds.foldl (fun acc t => acc.filter (fun y => y != t)) s

/-- The source `getMethodFamily` (`taxonomy.ts`): the one-hop family of a
method (itself, parent, siblings, implies, impliedBy), in `Set` insertion
order. -/
def getMethodFamily (tax : List (String × MethodNode)) (methodId : String) : List String :=
  match lookupNode tax methodId with
  | none => [methodId]
  | some node =>
    let family := [methodId]
    let family := match node.parent with
      | some p => sAdd family p
      | none => family
    let family := (node.siblings.getD []).foldl sAdd family
    let family := (node.implies.getD []).foldl sAdd family
    let family := (node.impliedBy.getD []).foldl sAdd family
    family

/-- Result of `getTopicNeighborhood`. -/
structure Neighborhood where
  direct : List String
  adjacent : List String
deriving DecidableEq

/-- The source `getTopicNeighborhood` (`taxonomy.ts`): depth 1 collects the
node and its `related` edges into `direct` and its `adjacent` edges into
`adjacent`; depth 2 adds the related nodes' `related`/`adjacent` edges;
depth 3 additionally walks `related` edges out of the current adjacent
frontier.  The depth is an integer because the caller computes it by
rounding an unclamped expression. -/
def getTopicNeighborhood (tax : List (String × TopicNode)) (topicId : String) (depth : ℤ) :
    Neighborhood :=
  match lookupNode tax topicId with
  | none => { direct := [topicId], adjacent := [] }
  | some node =>
    let direct := (topicId :: node.related).foldl sAdd []
    let adjacent := node.adjacent.foldl sAdd []
    let adjacent := removeAll adjacent direct
    let adjacent :=
      if depth ≥ 2 then
        node.related.foldl (fun adj relatedId =>
          match lookupNode tax relatedId with
          | none => adj
          | some relatedNode =>
            let adj := relatedNode.related.foldl
              (fun a r => if direct.contains r then a else sAdd a r) adj
            relatedNode.adjacent.foldl
              (fun a x => if direct.contains x then a else sAdd a x) adj) adjacent
      else adjacent
    let adjacent :=
      if depth ≥ 3 then
        adjacent.foldl (fun adj adjId =>
          match lookupNode tax adjId with
          | none => adj
          | some adjNode =>
            adjNode.related.foldl
              (fun a r => if direct.contains r || a.contains r then a else sAdd a r) adj)
          adjacent
      else adjacent
    { direct := direct, adjacent := adjacent }

/-- The source `FIELD_AFFINITY` lookup `getFieldAffinity`: 1.0 on equal
fields, the stored value in either direction, 0.2 otherwise. -/
def getFieldAffinity (table : List (String × List (String × ℚ))) (fieldA fieldB : String) : ℚ :=
  if fieldA = fieldB then 1.0
  else
    match alistGet? table fieldA with
    | some m =>
      match alistGet? m fieldB with
      | some v => v
      | none =>
        match alistGet? table fieldB with
        | some m2 =>
          match alistGet? m2 fieldA with
          | some v => v
          | none => 0.2
        | none => 0.2
    | none =>
      match alistGet? table fieldB with
      | some m2 =>
        match alistGet? m2 fieldA with
        | some v => v
        | none => 0.2
      | none => 0.2

/-- The expanded user profile. -/
structure ExpandedUserProfile where
  directTopicIds : List String
  expandedTopicIds : List String
  adjacentTopicIds : List String
  directMethodIds : List String
  expandedMethodIds : List String
  isGeneralist : Bool
  hasInterests : Bool
  hasMethods : Bool
  explorationLevel : ℚ
  primaryField : String

/-- One step of the interest-expansion loop of `expandUserProfile`: a single
taxonomy id of one interest updates the `(direct, expanded, adjacent)`
topic-id sets. -/
def expandInterestId (env : Env) (directDepth adjacentDepth : ℤ)
    (st : List String × List String × List String) (id : String) :
    List String × List String × List String :=
  let d := sAdd st.1 id
  let ex := sAdd st.2.1 id
  let neighborhood := getTopicNeighborhood env.topicTaxonomy id directDepth
  let ex := neighborhood.direct.foldl sAdd ex
  let wider := getTopicNeighborhood env.topicTaxonomy id adjacentDepth
  let adj := wider.adjacent.foldl sAdd st.2.2
  (d, ex, adj)

/-- One step of the method-expansion loop of `expandUserProfile`. -/
def expandMethodId (env : Env) (st : List String × List String) (id : String) :
    List String × List String :=
  let dm := sAdd st.1 id
  let em := sAdd st.2 id
  let em := (getMethodFamily env.methodTaxonomy id).foldl sAdd em
  (dm, em)

/-- The interest-expansion loop of `expandUserProfile`, before the
overlap clean-up: fold every taxonomy id of every interest into the
`(direct, expanded, adjacent)` topic-id sets. -/
def rawTopicSets (env : Env) (profile : UserProfile) :
    List String × List String × List String :=
  let explorationLevel := profile.exploration_level.getD 0.5
  let directDepth : ℤ := if explorationLevel > 0.7 then 2 else 1
  let adjacentDepth : ℤ := jsRound (1 + explorationLevel * 2)
  let interests := profile.interests.getD []
  interests.foldl (fun st interest =>
    match alistGet? env.interestToTaxonomy interest with
    | none => st
    | some taxonomyIds => taxonomyIds.foldl (expandInterestId env directDepth adjacentDepth) st)
    ([], [], [])

/-- The source `expandUserProfile`: map each interest and method string
through the lookup tables, expand topics through the neighbourhood walk at
exploration-dependent depths, remove direct/expanded ids from the adjacent
set, and expand methods through the one-hop family. -/
def expandUserProfile (env : Env) (profile : UserProfile) : ExpandedUserProfile :=
  let explorationLevel := profile.exploration_level.getD 0.5
  let interests := profile.interests.getD []
  let topicSets := rawTopicSets env profile
  let directTopicIds := topicSets.1
  let expandedTopicIds := topicSets.2.1
  let adjacentTopicIds := removeAll topicSets.2.2 directTopicIds
  let adjacentTopicIds := removeAll adjacentTopicIds expandedTopicIds
  let methods := profile.methods.getD []
  let methodSets := methods.foldl (fun st method =>
    match alistGet? env.methodToTaxonomy method with
    | none => st
    | some taxonomyIds => taxonomyIds.foldl (expandMethodId env) st) ([], [])
  let isGeneralist :=
    env.isGeneralistField (profile.primary_field.getD "") ||
    env.isGeneralistLevel (profile.academic_level.getD "") ||
    profile.experience_type == some "generalist" ||
    profile.experience_type == some "explorer" ||
    interests.isEmpty
  { directTopicIds := directTopicIds,
    expandedTopicIds := expandedTopicIds,
    adjacentTopicIds := adjacentTopicIds,
    directMethodIds := methodSets.1,
    expandedMethodIds := methodSets.2,
    isGeneralist := isGeneralist,
    hasInterests := !interests.isEmpty,
    hasMethods := !methods.isEmpty,
    explorationLevel := explorationLevel,
    primaryField := profile.primary_field.getD "" }

/-- The `matchType` of a topic-affinity result. -/
inductive MatchType where
  | direct
  | related
  | adjacent
  | none
deriving DecidableEq

/-- Result of `calculateTopicAffinity`. -/
structure TopicAffinityResult where
  score : ℚ
  matchedTopics : List String
  matchType : MatchType
deriving DecidableEq

/-- One step of the topic-affinity loop: bucket the topic's
confidence-weighted credit into the `(direct, related, adjacent)`
accumulators and collect matched names. -/
def topicAffinityStep (user : ExpandedUserProfile) (weights : ScoringWeights)
    (st : ℚ × ℚ × ℚ × List String) (topic : DetectedTopic) : ℚ × ℚ × ℚ × List String :=
  let confidenceWeight : ℚ :=
    match topic.confidence with
    | Confidence.high => 1.0
    | Confidence.medium => 0.7
    | Confidence.low => 0.4
  if user.directTopicIds.contains topic.id then
    (st.1 + confidenceWeight, st.2.1, st.2.2.1, st.2.2.2 ++ [topic.name])
  else if user.expandedTopicIds.contains topic.id then
    (st.1, st.2.1 + confidenceWeight * weights.directHopWeight, st.2.2.1,
      if topic.confidence ≠ Confidence.low then st.2.2.2 ++ [topic.name] else st.2.2.2)
  else if user.adjacentTopicIds.contains topic.id then
    (st.1, st.2.1, st.2.2.1 + confidenceWeight * weights.adjacentHopWeight, st.2.2.2)
  else st

/-- The source `calculateTopicAffinity`: neutral 0.5 for users with no
interests; otherwise cap the three buckets, combine
`0.5·direct + 0.3·related + 0.2·adjacent`, clamp to `[0,1]` and classify
the match type. -/
def calculateTopicAffinity (paperProfile : PaperProfile) (user : ExpandedUserProfile)
    (weights : ScoringWeights) : TopicAffinityResult :=
  if !user.hasInterests then
    { score := 0.5,
      matchedTopics := ((paperProfile.topics.filter
          (fun t => t.confidence == Confidence.high)).take 2).map (fun t => t.name),
      matchType := MatchType.none }
  else
    let st := paperProfile.topics.foldl (topicAffinityStep user weights) (0, 0, 0, [])
    let directMatchScore := jsMin 1.0 st.1
    let relatedMatchScore := jsMin 0.85 st.2.1
    let adjacentMatchScore := jsMin 0.6 st.2.2.1
    let score := directMatchScore * 0.5 + relatedMatchScore * 0.3 + adjacentMatchScore * 0.2
    let matchType :=
      if directMatchScore > 0.3 then MatchType.direct
      else if relatedMatchScore > 0.3 then MatchType.related
      else if adjacentMatchScore > 0.2 then MatchType.adjacent
      else MatchType.none
    { score := jsMin 1.0 score, matchedTopics := st.2.2.2.take 3, matchType := matchType }

/-- Result of `calculateMethodAffinity`. -/
structure MethodAffinityResult where
  score : ℚ
  matchedMethods : List String
  paradigmMatch : Bool
deriving DecidableEq

/-- One step of the method-affinity loop. -/
def methodAffinityStep (user : ExpandedUserProfile)
    (st : ℚ × ℚ × List String) (method : DetectedMethod) : ℚ × ℚ × List String :=
  let confidenceWeight : ℚ :=
    match method.confidence with
    | Confidence.high => 1.0
    | Confidence.medium => 0.6
    | Confidence.low => 0.3
  if user.directMethodIds.contains method.id then
    (st.1 + confidenceWeight, st.2.1, st.2.2 ++ [method.name])
  else if user.expandedMethodIds.contains method.id then
    (st.1, st.2.1 + confidenceWeight * 0.6,
      if method.confidence ≠ Confidence.low then st.2.2 ++ [method.name] else st.2.2)
  else st

/-- The source `calculateMethodAffinity`: neutral 0.5 for users with no
method preferences; otherwise the capped two-bucket combination
`0.6·direct + 0.4·family`. -/
def calculateMethodAffinity (paperProfile : PaperProfile) (user : ExpandedUserProfile) :
    MethodAffinityResult :=
  if !user.hasMethods then
    { score := 0.5, matchedMethods := getMethodTags paperProfile, paradigmMatch := false }
  else
    let st := paperProfile.methods.foldl (methodAffinityStep user) (0, 0, [])
    let directMatchScore := jsMin 1.0 st.1
    let familyMatchScore := jsMin 0.7 st.2.1
    let score := directMatchScore * 0.6 + familyMatchScore * 0.4
    let paradigmMatch := directMatchScore > 0.4 ∨ familyMatchScore > 0.3
    { score := jsMin 1.0 score, matchedMethods := st.2.2.take 2,
      paradigmMatch := decide paradigmMatch }

/-- The source `calculateQualityBaseline`: `3.0 + qualityScore·(max − 3.0)`
(the `paper` argument is unused, as in the source). -/
def calculateQualityBaseline (_paper : Paper) (paperProfile : PaperProfile)
    (maxBaseline : ℚ) : ℚ :=
  let qualityBonus := paperProfile.qualityScore * (maxBaseline - 3.0)
  3.0 + qualityBonus

/-- The `journal_field → user-facing field name` literal map inside
`calculateDiscoveryBonus`. -/
def fieldNameMap (paperField : String) : String :=
  if paperField = "economics" then "Microeconomics"
  else if paperField = "polisci" then "Political Economy"
  else if paperField = "psychology" then "Psychology (Behavioral/Social)"
  else if paperField = "sociology" then "Sociology"
  else if paperField = "management" then "Management / Organization Studies"
  else ""

/-- The source `calculateDiscoveryBonus`: quality-only bonus for users with
no interests; 0 for direct matches or quality below 0.5; otherwise the
adjacency bump plus quality bump scaled by `discoveryMax / 3`, plus the
cross-field affinity bump, capped at `discoveryMax`. -/
def calculateDiscoveryBonus (env : Env) (paperProfile : PaperProfile)
    (topicAffinity : TopicAffinityResult) (user : ExpandedUserProfile)
    (paper : Paper) (weights : ScoringWeights) : ℚ :=
  if !user.hasInterests then
    paperProfile.qualityScore * weights.discoveryMax * 0.5
  else if topicAffinity.matchType = MatchType.direct then 0
  else if paperProfile.qualityScore < 0.5 then 0
  else
    let adjacentBonus : ℚ := if topicAffinity.matchType = MatchType.adjacent then 0.4 else 0.15
    let qualityBonus := (paperProfile.qualityScore - 0.5) * 1.5
    let fieldAffinityBonus : ℚ :=
      if user.primaryField ≠ "" ∧ !(env.isGeneralistField user.primaryField) then
        let paperField := paper.journal_field.getD ""
        let mappedField := fieldNameMap paperField
        if mappedField ≠ "" ∧ mappedField ≠ user.primaryField then
          getFieldAffinity env.fieldAffinityTable user.primaryField mappedField *
            weights.fieldAffinityMax
        else 0
      else 0
    let rawBonus := (adjacentBonus + qualityBonus) * weights.discoveryMax / 3.0 +
      fieldAffinityBonus
    jsMin weights.discoveryMax rawBonus

/-- The match tier of a score. -/
inductive MatchTier where
  | core
  | explore
  | discovery
deriving DecidableEq

/-- The source `classifyMatchTier`.  Note that the scorer calls it on the
clamped but unrounded final score. -/
def classifyMatchTier (score : ℚ) : MatchTier :=
  if score ≥ 7.0 then MatchTier.core
  else if score ≥ 5.0 then MatchTier.explore
  else MatchTier.discovery

/-- The source `buildExplanation`: join up to the first few parts (matched
topics, lead matched method, journal-tier label, paper-type fallback) with
" · ", falling back to topic tags or a generic string. -/
def buildExplanation (paperProfile : PaperProfile) (topicResult : TopicAffinityResult)
    (methodResult : MethodAffinityResult) (paper : Paper) (user : ExpandedUserProfile) :
    String :=
  let parts : List String := []
  let parts :=
    if topicResult.matchedTopics ≠ [] ∧ topicResult.matchType ≠ MatchType.none then
      parts ++ [String.intercalate ", " (topicResult.matchedTopics.take 2)]
    else parts
  let parts :=
    if user.hasMethods ∧ methodResult.paradigmMatch ∧ methodResult.matchedMethods ≠ [] then
      parts ++ [methodResult.matchedMethods.headD ""]
    else parts
  let tier := if paper.journal_tier = 0 then 4 else paper.journal_tier
  let parts :=
    if tier = 1 then parts ++ ["Top journal"]
    else if tier = 2 ∧ parts.length < 2 then parts ++ ["Top field journal"]
    else parts
  let parts :=
    if parts.length < 2 then
      if paperProfile.isReview then parts ++ ["Review"]
      else if paperProfile.isTheoretical then parts ++ ["Theoretical"]
      else parts
    else parts
  if parts.isEmpty then
    if user.isGeneralist then
      let topicTags := getTopicTags paperProfile
      if topicTags ≠ [] then String.intercalate ", " (topicTags.take 2)
      else "Recent research"
    else "Related research"
  else String.intercalate " · " parts

/-- The produced match score record. -/
structure MatchScore where
  total : ℚ
  baseline_score : ℚ
  concept_score : ℚ
  keyword_score : ℚ
  method_score : ℚ
  quality_score : ℚ
  field_relevance_score : ℚ
  discovery_score : ℚ
  matched_interests : List String
  matched_methods : List String
  matched_topics : List String
  explanation : String
  is_adjacent_field : Bool
  match_tier : MatchTier
deriving DecidableEq

/-- The in-place defaulting the `RelevanceScorer` constructor performs on
the caller-supplied profile object (mutation modelled by explicit state
passing): absent `interests`, `methods` and `selected_adjacent_fields`
become `[]`, an undefined `exploration_level` becomes 0.5, everything else
is untouched. -/
def normalizeProfile (profile : UserProfile) : UserProfile :=
  { profile with
    interests := some (profile.interests.getD []),
    methods := some (profile.methods.getD []),
    selected_adjacent_fields := some (profile.selected_adjacent_fields.getD []),
    exploration_level := some (profile.exploration_level.getD 0.5) }

/-- The body of `RelevanceScorer.scorePaper` on a scorer constructed from
`profile` (so on the normalized profile), returning the `MatchScore`
together with the clamped-but-unrounded final score (the value the source
holds in `finalScore`).  `now` is the clock value used by the quality
score. -/
def scorePaperWithRaw (env : Env) (profile : UserProfile) (paper : Paper) (now : ℚ) :
    MatchScore × ℚ :=
  let p := normalizeProfile profile
  let user := expandUserProfile env p
  let weights := getWeights user.explorationLevel
  let paperProfile := analyzePaper env paper now
  let topicResult := calculateTopicAffinity paperProfile user weights
  let methodResult := calculateMethodAffinity paperProfile user
  let baselineScore := calculateQualityBaseline paper paperProfile weights.qualityBaselineMax
  let topicBonus :=
    if user.hasInterests then topicResult.score * weights.topicMax
    else topicResult.score * 0.5
  let methodBonus :=
    if user.hasMethods then methodResult.score * weights.methodMax
    else methodResult.score * 0.3
  let discoveryBonus := calculateDiscoveryBonus env paperProfile topicResult user paper weights
  let jf := paper.journal_field.getD ""
  let fieldState : ℚ × Bool :=
    if jf ≠ "" ∧ env.isAdjacentField jf then
      let selectedAdjacent := p.selected_adjacent_fields.getD []
      if p.include_adjacent_fields ∧ selectedAdjacent.contains jf then (0.95, true)
      else (0.8 + user.explorationLevel * 0.1, true)
    else (1.0, false)
  let fieldModifier := fieldState.1
  let isAdjacent := fieldState.2
  let rawScore := (baselineScore + topicBonus + methodBonus + discoveryBonus) * fieldModifier
  let finalScore := jsMax 1.0 (jsMin 10.0 rawScore)
  let explanation := buildExplanation paperProfile topicResult methodResult paper user
  ({ total := (jsRound (finalScore * 10) : ℚ) / 10,
     baseline_score := (jsRound (baselineScore * 100) : ℚ) / 100,
     concept_score := (jsRound (topicResult.score * 1000) : ℚ) / 1000,
     keyword_score := 0,
     method_score := (jsRound (methodResult.score * 1000) : ℚ) / 1000,
     quality_score := (jsRound (paperProfile.qualityScore * 1000) : ℚ) / 1000,
     field_relevance_score := (jsRound (fieldModifier * 1000) : ℚ) / 1000,
     discovery_score := (jsRound (discoveryBonus * 1000) : ℚ) / 1000,
     matched_interests := topicResult.matchedTopics,
     matched_methods := methodResult.matchedMethods,
     matched_topics := ((paperProfile.topics.filter
         (fun t => t.confidence ≠ Confidence.low)).take 3).map (fun t => t.name),
     explanation := explanation,
     is_adjacent_field := isAdjacent,
     match_tier := classifyMatchTier finalScore }, finalScore)

/-- `RelevanceScorer.scorePaper`: the produced `MatchScore`. -/
def scorePaper (env : Env) (profile : UserProfile) (paper : Paper) (now : ℚ) : MatchScore :=
  (scorePaperWithRaw env profile paper now).1

/-- The clamped-but-unrounded final score of a scoring call (the source's
local `finalScore`, before the one-decimal rounding that produces
`total`). -/
def finalScoreOf (env : Env) (profile : UserProfile) (paper : Paper) (now : ℚ) : ℚ :=
  (scorePaperWithRaw env profile paper now).2

/-- A concrete environment instantiating the external data tables with the
fragments copied from `src/lib/taxonomy.ts` above; the interest table holds
the source rows for "Causal Inference" and "Inequality".  The
`profile-options.ts` / `journals.ts` predicates are instantiated with
constantly-false functions (none of the fields appearing in the concrete
inputs below is a generalist or adjacent field). -/
def sampleEnv : Env :=
  { methodTaxonomy := methodTaxonomyCI,
    topicTaxonomy := topicTaxonomyIneq,
    interestToTaxonomy :=
      [("Causal Inference", ["causal_inference"]),
       ("Inequality", ["inequality", "top_incomes", "mobility"])],
    methodToTaxonomy :=
      [("Difference-in-Differences", ["diff_in_diff", "causal_inference"])],
    fieldAffinityTable := [],
    isGeneralistField := fun _ => false,
    isGeneralistLevel := fun _ => false,
    isAdjacentField := fun _ => false }

/-- A tier-1 paper with 50 citations and no text, used for the
tier-boundary scenario. -/
def tier1Paper : Paper :=
  { title := "", abstract := "", journal_tier := 1, cited_by_count := 50 }

/-- A generalist profile (no interests or methods) with exploration level
71/84, chosen so that the unrounded final score of `tier1Paper` is exactly
6.98: the baseline is `3 + 0.96·(2 + e/2)`, the neutral topic and method
bonuses contribute `0.25 + 0.15`, and the generalist discovery bonus is
`0.96·(0.5 + 2.5·e)·0.5`, so the raw score is `5.56 + 1.68·e`. -/
def generalist98Profile : UserProfile :=
  { interests := some [], methods := some [],
    exploration_level := some ((71 : ℚ) / 84) }

/-- A tier-1 paper with 5 citations published at epoch 0, whose quality
score depends on the clock through the recency adjustment. -/
def recentPaper : Paper :=
  { title := "", abstract := "", journal_tier := 1, cited_by_count := 5,
    publication_date := some 0 }

/-- A fully exploratory generalist profile. -/
def explorerProfile : UserProfile :=
  { interests := some [], methods := some [], exploration_level := some 1 }

/-- A profile whose single interest is the source row "Inequality". -/
def inequalityProfile : UserProfile :=
  { interests := some ["Inequality"] }

/-- A paper with 12 citations and a publication date: enough citations for
the recency adjustment (which needs fewer than 10) to be skipped. -/
def citedPaper : Paper :=
  { title := "", abstract := "", journal_tier := 2, cited_by_count := 12,
    publication_date := some 0 }

/-- A paper profile whose only detected topic is `inequality` at high
confidence (the shape `analyzePaper` produces for a strongly
inequality-focused paper). -/
def inequalityPaperProfile : PaperProfile :=
  { methods := [],
    topics := [{ id := "inequality", name := "Inequality",
                 confidence := Confidence.high, source := TopicSource.abstract }],
    isEmpirical := true, isTheoretical := false, isReview := false,
    isQuantitative := true, isQualitative := false,
    qualityScore := 0.96,
    methodSignals := [], topicSignals := [] }

example : (scorePaper sampleEnv generalist98Profile tier1Paper 0).total = 7 := by
  with_unfolding_all rfl

example :
    (scorePaper sampleEnv generalist98Profile tier1Paper 0).match_tier = MatchTier.explore := by
  with_unfolding_all rfl

example : (scorePaper sampleEnv explorerProfile recentPaper 0).total = 6.6 := by
  with_unfolding_all rfl

example : (scorePaper sampleEnv explorerProfile recentPaper 31104000000).total = 6.5 := by
  with_unfolding_all rfl

theorem jsMin_le_left (a b : ℚ) : jsMin a b ≤ a := by
  unfold jsMin; split_ifs with h
  · exact le_refl a
  · linarith

theorem jsMin_le_right (a b : ℚ) : jsMin a b ≤ b := by
  unfold jsMin; split_ifs with h
  · exact h
  · exact le_refl b

theorem le_jsMax_left (a b : ℚ) : a ≤ jsMax a b := by
  unfold jsMax; split_ifs with h
  · exact h
  · exact le_refl a

theorem jsMax_le {a b c : ℚ} (h1 : a ≤ c) (h2 : b ≤ c) : jsMax a b ≤ c := by
  unfold jsMax; split_ifs <;> assumption

theorem le_jsMin {a b c : ℚ} (h1 : c ≤ a) (h2 : c ≤ b) : c ≤ jsMin a b := by
  unfold jsMin; split_ifs <;> assumption

theorem jsMin_eq_left {a b : ℚ} (h : a ≤ b) : jsMin a b = a := by
  unfold jsMin; exact if_pos h

theorem jsRound_bounds {x : ℚ} {a b : ℤ} (h1 : (a : ℚ) ≤ x) (h2 : x ≤ (b : ℚ)) :
    a ≤ jsRound x ∧ jsRound x ≤ b := by
  constructor
  · exact Int.le_floor.mpr (by linarith)
  · have hfl : (jsRound x : ℚ) ≤ x + 1 / 2 := Int.floor_le (x + 1 / 2)
    have : (jsRound x : ℚ) < (b : ℚ) + 1 := by linarith
    exact_mod_cast Int.lt_add_one_iff.mp (by exact_mod_cast this)

theorem clampUnit_eq {e : ℚ} (h0 : 0 ≤ e) (h1 : e ≤ 1) : jsMax 0 (jsMin 1 e) = e := by
  unfold jsMax jsMin
  split_ifs <;> linarith

/-- C1: the spec (and the source's own comment at the dedup site in
`detectMethods`) say that when a hierarchy child method (here
`diff_in_diff`, child of `causal_inference`) is detected together with its
parent, the output keeps the child and suppresses the parent.  The
implemented filter keeps a method only when its own parent is undetected,
which drops the child and keeps the parent.  Evaluation at the failing
input: both methods are detected (the `signals` map lists both), but the
returned list is exactly the parent. -/
theorem c1_dedup_drops_child_keeps_parent :
    ((detectMethods methodTaxonomyCI
        "Minimum Wages and Employment: A Difference-in-Differences Approach with Causal Identification"
        "").signals.map (fun s => s.1)) = ["causal_inference", "diff_in_diff"] ∧
    ((detectMethods methodTaxonomyCI
        "Minimum Wages and Employment: A Difference-in-Differences Approach with Causal Identification"
        "").methods.map (fun m => m.id)) = ["causal_inference"] :=
  ⟨by decide, by decide⟩

/-- C2 counterexample: the claim says `isEmpirical` is forced to `false`
whenever `isReview` (or `isTheoretical`) is `true`, but on the text
"literature review regression" (no detected methods) the classifier sets
both `isReview` and `isEmpirical` to `true`: the `&&`-over-`||` grouping
only guards the generic evidentiary-language disjunct, not the
quantitative/qualitative ones. -/
theorem c2_counterexample_review_and_empirical :
    (detectMetaCharacteristics "literature review regression" []).isReview = true ∧
    (detectMetaCharacteristics "literature review regression" []).isEmpirical = true :=
  ⟨by decide, by decide⟩

/-- C2 (amended): when `isReview` or `isTheoretical` is `true`, the forced
`false` applies only to the generic evidentiary-language disjunct, so
`isEmpirical` still equals `isQuantitative || isQualitative`. -/
theorem c2_empirical_forced_false_only_without_quant_qual
    (text : String) (methods : List DetectedMethod)
    (h : (detectMetaCharacteristics text methods).isReview = true ∨
      (detectMetaCharacteristics text methods).isTheoretical = true) :
    (detectMetaCharacteristics text methods).isEmpirical =
      ((detectMetaCharacteristics text methods).isQuantitative ||
        (detectMetaCharacteristics text methods).isQualitative) := by
  have hrfl : (detectMetaCharacteristics text methods).isEmpirical =
      ((detectMetaCharacteristics text methods).isQuantitative ||
        (detectMetaCharacteristics text methods).isQualitative ||
        ((containsTerm text "data" || containsTerm text "evidence" ||
            containsTerm text "empirical") &&
          !(detectMetaCharacteristics text methods).isTheoretical &&
          !(detectMetaCharacteristics text methods).isReview)) := rfl
  rcases h with h | h <;> rw [hrfl, h] <;> simp

/-- C2 witness: the amended statement applied at the counterexample text. -/
theorem c2_empirical_witness :
    ((detectMetaCharacteristics "literature review regression" []).isReview = true ∨
      (detectMetaCharacteristics "literature review regression" []).isTheoretical = true) ∧
    (detectMetaCharacteristics "literature review regression" []).isEmpirical =
      ((detectMetaCharacteristics "literature review regression" []).isQuantitative ||
        (detectMetaCharacteristics "literature review regression" []).isQualitative) :=
  ⟨Or.inl (by decide),
    c2_empirical_forced_false_only_without_quant_qual "literature review regression" []
      (Or.inl (by decide))⟩

/-- C8: on `[0,1]` the topic cap `3 − 2e` strictly decreases and the
discovery cap `0.5 + 2.5e` strictly increases in the exploration level. -/
theorem c8_weight_caps_strictly_monotone (e1 e2 : ℚ)
    (h0 : 0 ≤ e1) (h12 : e1 < e2) (h1 : e2 ≤ 1) :
    (getWeights e2).topicMax < (getWeights e1).topicMax ∧
    (getWeights e1).discoveryMax < (getWeights e2).discoveryMax := by
  have he1 : jsMax 0 (jsMin 1 e1) = e1 := clampUnit_eq h0 (by linarith)
  have he2 : jsMax 0 (jsMin 1 e2) = e2 := clampUnit_eq (by linarith) h1
  simp only [getWeights, he1, he2]
  constructor <;> linarith

/-- C8 witness: the monotonicity theorem applied at the endpoints 0 and 1. -/
theorem c8_weight_caps_witness :
    (0 : ℚ) ≤ 0 ∧ (0 : ℚ) < 1 ∧ (1 : ℚ) ≤ 1 ∧
    ((getWeights 1).topicMax < (getWeights 0).topicMax ∧
      (getWeights 0).discoveryMax < (getWeights 1).discoveryMax) :=
  ⟨le_refl 0, by norm_num, le_refl 1,
    c8_weight_caps_strictly_monotone 0 1 (le_refl 0) (by norm_num) (le_refl 1)⟩

/-- C10: the scorer constructor's in-place defaulting of the supplied
profile (modelled by `normalizeProfile`): absent `interests`, `methods` and
`selected_adjacent_fields` become `[]`, an undefined `exploration_level`
becomes 0.5 (present values are untouched, as `getD` restates), and every
other field is unchanged. -/
theorem c10_constructor_defaults_and_frame (p : UserProfile) :
    (normalizeProfile p).interests = some (p.interests.getD []) ∧
    (normalizeProfile p).methods = some (p.methods.getD []) ∧
    (normalizeProfile p).selected_adjacent_fields =
      some (p.selected_adjacent_fields.getD []) ∧
    (normalizeProfile p).exploration_level = some (p.exploration_level.getD 0.5) ∧
    (normalizeProfile p).name = p.name ∧
    (normalizeProfile p).academic_level = p.academic_level ∧
    (normalizeProfile p).primary_field = p.primary_field ∧
    (normalizeProfile p).region = p.region ∧
    (normalizeProfile p).approach_preference = p.approach_preference ∧
    (normalizeProfile p).experience_type = p.experience_type ∧
    (normalizeProfile p).include_adjacent_fields = p.include_adjacent_fields :=
  ⟨rfl, rfl, rfl, rfl, rfl, rfl, rfl, rfl, rfl, rfl, rfl⟩

/-- C3 counterexample: the claim reads the tier boundaries off the reported
(rounded) total, but the code classifies the tier from the unrounded
clamped score.  For `generalist98Profile` and `tier1Paper` the unrounded
final score is 6.98, so the reported total is 7.0 while the tier is
`explore`, contradicting "total equal to 7.0 yields tier core". -/
theorem c3_counterexample_total_seven_tier_explore :
    (scorePaper sampleEnv generalist98Profile tier1Paper 0).total = 7 ∧
    (scorePaper sampleEnv generalist98Profile tier1Paper 0).match_tier = MatchTier.explore :=
  ⟨by with_unfolding_all rfl, by with_unfolding_all rfl⟩

/-- C3 (amended): the match tier is classified from the clamped but
unrounded final score, with boundaries ≥7.0 core, ≥5.0 explore, otherwise
discovery; the reported total is that score rounded to one decimal and can
disagree with the tier at the boundaries. -/
theorem c3_tier_from_unrounded_score (env : Env) (profile : UserProfile)
    (paper : Paper) (now : ℚ) :
    (scorePaper env profile paper now).match_tier =
      classifyMatchTier (finalScoreOf env profile paper now) ∧
    ∀ s : ℚ,
      (classifyMatchTier s = MatchTier.core ↔ 7 ≤ s) ∧
      (classifyMatchTier s = MatchTier.explore ↔ 5 ≤ s ∧ s < 7) ∧
      (classifyMatchTier s = MatchTier.discovery ↔ s < 5) := by
  refine ⟨rfl, fun s => ?_⟩
  unfold classifyMatchTier
  have h7 : (7.0 : ℚ) = 7 := by norm_num
  have h5 : (5.0 : ℚ) = 5 := by norm_num
  rw [h7, h5]
  split_ifs with h1 h2
  · exact ⟨⟨fun _ => h1, fun _ => rfl⟩,
      ⟨fun h => absurd h (by decide), fun h => (show False by linarith).elim⟩,
      ⟨fun h => absurd h (by decide), fun h => (show False by linarith).elim⟩⟩
  · push_neg at h1
    exact ⟨⟨fun h => absurd h (by decide), fun h => (show False by linarith).elim⟩,
      ⟨fun _ => ⟨h2, h1⟩, fun _ => rfl⟩,
      ⟨fun h => absurd h (by decide), fun h => (show False by linarith).elim⟩⟩
  · push_neg at h1 h2
    exact ⟨⟨fun h => absurd h (by decide), fun h => (show False by linarith).elim⟩,
      ⟨fun h => absurd h (by decide), fun h => (show False by linarith).elim⟩,
      ⟨fun _ => h2, fun _ => rfl⟩⟩

/-- C3 boundary witness: the amended characterization applied at the
counterexample's unrounded score 6.98 (tier explore) and at 7 (tier core). -/
theorem c3_tier_boundary_witness :
    classifyMatchTier 6.98 = MatchTier.explore ∧ classifyMatchTier 7 = MatchTier.core :=
  ⟨((c3_tier_from_unrounded_score sampleEnv generalist98Profile tier1Paper 0).2
      6.98).2.1.mpr (by norm_num),
    ((c3_tier_from_unrounded_score sampleEnv generalist98Profile tier1Paper 0).2
      7).1.mpr (by norm_num)⟩

/-- C6 counterexample: scoring is not a function of the (profile, paper)
pair alone — `calculateQualityScore` reads the clock for the recency
adjustment.  The same profile and paper scored at epoch 0 and twelve
30-day months later get totals 6.6 and 6.5. -/
theorem c6_counterexample_clock_dependence :
    (scorePaper sampleEnv explorerProfile recentPaper 0).total ≠
      (scorePaper sampleEnv explorerProfile recentPaper 31104000000).total := by
  have h1 : (scorePaper sampleEnv explorerProfile recentPaper 0).total = 6.6 := by
    with_unfolding_all rfl
  have h2 : (scorePaper sampleEnv explorerProfile recentPaper 31104000000).total = 6.5 := by
    with_unfolding_all rfl
  rw [h1, h2]; norm_num

/-- C6 (amended): the scoring pipeline is a pure function of the profile,
the paper and the clock; the clock enters only through the recency
adjustment, so for a paper with at least 10 citations or no publication
date two invocations at different times give identical outputs. -/
theorem c6_scoring_clock_independent_without_recency (env : Env)
    (profile : UserProfile) (paper : Paper) (n1 n2 : ℚ)
    (h : 10 ≤ paper.cited_by_count ∨ paper.publication_date = none) :
    scorePaper env profile paper n1 = scorePaper env profile paper n2 := by
  have hc : citeScoreAdjusted paper.cited_by_count paper.publication_date n1 =
      citeScoreAdjusted paper.cited_by_count paper.publication_date n2 := by
    unfold citeScoreAdjusted
    rcases h with h | h
    · rcases hpd : paper.publication_date with _ | pt
      · rfl
      · have hno : ¬ (paper.cited_by_count < 10) := by omega
        simp [hno]
    · rw [h]
  have hq : calculateQualityScore paper n1 = calculateQualityScore paper n2 := by
    unfold calculateQualityScore
    rw [hc]
  have hpp : analyzePaper env paper n1 = analyzePaper env paper n2 := by
    unfold analyzePaper
    rw [hq]
  unfold scorePaper scorePaperWithRaw
  rw [hpp]

/-- C6 witness: identical outputs at two different clock values for a paper
with 12 citations. -/
theorem c6_clock_independence_witness :
    (10 ≤ citedPaper.cited_by_count ∨ citedPaper.publication_date = none) ∧
    scorePaper sampleEnv explorerProfile citedPaper 0 =
      scorePaper sampleEnv explorerProfile citedPaper 999999999999 :=
  ⟨Or.inl (by decide),
    c6_scoring_clock_independent_without_recency sampleEnv explorerProfile citedPaper
      0 999999999999 (Or.inl (by decide))⟩

theorem tierScoreOf_bounds (t : Nat) : 7 / 20 ≤ tierScoreOf t ∧ tierScoreOf t ≤ 1 := by
  unfold tierScoreOf
  split_ifs <;> norm_num

theorem citeScoreBase_bounds (c : Nat) : 1 / 4 ≤ citeScoreBase c ∧ citeScoreBase c ≤ 1 := by
  unfold citeScoreBase
  split_ifs <;> norm_num

theorem citeScoreAdjusted_bounds (c : Nat) (pd : Option ℚ) (now : ℚ) :
    1 / 4 ≤ citeScoreAdjusted c pd now ∧ citeScoreAdjusted c pd now ≤ 1 := by
  have hb := citeScoreBase_bounds c
  unfold citeScoreAdjusted
  rcases pd with _ | pt
  · exact hb
  · dsimp only
    split_ifs
    · exact ⟨le_trans hb.1 (le_jsMax_left _ _), jsMax_le hb.2 (by norm_num)⟩
    · exact ⟨le_trans hb.1 (le_jsMax_left _ _), jsMax_le hb.2 (by norm_num)⟩
    · exact hb
    · exact hb

theorem calculateQualityScore_bounds (paper : Paper) (now : ℚ) :
    0 ≤ calculateQualityScore paper now ∧ calculateQualityScore paper now ≤ 1 := by
  have ht := tierScoreOf_bounds paper.journal_tier
  have hc := citeScoreAdjusted_bounds paper.cited_by_count paper.publication_date now
  unfold calculateQualityScore
  constructor <;> [nlinarith; nlinarith]

/-- C7: for every paper the quality score lies in `[0,1]`, and for every
(profile, paper) pair the reported relevance total lies in `[1,10]` and is
an integer multiple of one tenth. -/
theorem c7_quality_and_total_bounds (env : Env) (profile : UserProfile)
    (paper : Paper) (now : ℚ) :
    (0 ≤ (analyzePaper env paper now).qualityScore ∧
      (analyzePaper env paper now).qualityScore ≤ 1) ∧
    (1 ≤ (scorePaper env profile paper now).total ∧
      (scorePaper env profile paper now).total ≤ 10) ∧
    ∃ k : ℤ, (scorePaper env profile paper now).total = (k : ℚ) / 10 := by
  have hq : (analyzePaper env paper now).qualityScore = calculateQualityScore paper now := rfl
  obtain ⟨r, hr⟩ : ∃ r, finalScoreOf env profile paper now = jsMax 1.0 (jsMin 10.0 r) :=
    ⟨_, rfl⟩
  have htot : (scorePaper env profile paper now).total =
      (jsRound (finalScoreOf env profile paper now * 10) : ℚ) / 10 := rfl
  have h1 : 1 ≤ finalScoreOf env profile paper now := by
    rw [hr]
    calc (1 : ℚ) = 1.0 := by norm_num
    _ ≤ jsMax 1.0 (jsMin 10.0 r) := le_jsMax_left _ _
  have h2 : finalScoreOf env profile paper now ≤ 10 := by
    rw [hr]
    exact jsMax_le (by norm_num) (le_trans (jsMin_le_left _ _) (by norm_num))
  have hk := jsRound_bounds
    (show ((10 : ℤ) : ℚ) ≤ finalScoreOf env profile paper now * 10 by push_cast; linarith)
    (show finalScoreOf env profile paper now * 10 ≤ ((100 : ℤ) : ℚ) by push_cast; linarith)
  have hk1 : (10 : ℚ) ≤ (jsRound (finalScoreOf env profile paper now * 10) : ℚ) := by
    exact_mod_cast hk.1
  have hk2 : (jsRound (finalScoreOf env profile paper now * 10) : ℚ) ≤ 100 := by
    exact_mod_cast hk.2
  refine ⟨hq ▸ calculateQualityScore_bounds paper now, ⟨?_, ?_⟩, ⟨_, htot⟩⟩
  · rw [htot]
    rw [le_div_iff₀ (by norm_num : (0 : ℚ) < 10)]
    linarith
  · rw [htot]
    rw [div_le_iff₀ (by norm_num : (0 : ℚ) < 10)]
    linarith

/-- C5 counterexample: with the child topic `mobility` (parent
`inequality`) and the parent both detected at high confidence, the merge
produces both, but the output keeps the parent and drops the child — the
claim says the parent is suppressed and the child kept. -/
theorem c5_counterexample_child_suppressed_not_parent :
    ((mergedTopicDetections topicTaxonomyIneq
        [("inequality", (Confidence.high, [])), ("mobility", (Confidence.high, []))]
        []).map (fun t => t.id)) = ["inequality", "mobility"] ∧
    ((combineTopicDetections topicTaxonomyIneq
        [("inequality", (Confidence.high, [])), ("mobility", (Confidence.high, []))]
        []).map (fun t => t.id)) = ["inequality"] :=
  ⟨by decide, by decide⟩

/-- C5 (amended): a merged topic detection survives the dedup filter iff
its taxonomy parent (when it has one) is not among the high-confidence
detections: the suppressed entry is the child (whatever its own
confidence), and the parent itself is kept unless its own parent is a
high-confidence detection. -/
theorem c5_topic_suppression_characterization (tax : List (String × TopicNode))
    (td : List (String × Confidence × List String))
    (cd : List (String × Confidence × ℚ)) (t : DetectedTopic) :
    t ∈ combineTopicDetections tax td cd ↔
      (t ∈ mergedTopicDetections tax td cd ∧
        ∀ node p, lookupNode tax t.id = some node → node.parent = some p →
          (((mergedTopicDetections tax td cd).filter
              (fun x => x.confidence == Confidence.high)).map (fun x => x.id)).contains p
            = false) := by
  unfold combineTopicDetections
  rw [List.mem_filter]
  constructor
  · rintro ⟨hmem, hpred⟩
    refine ⟨hmem, fun node p hn hp => ?_⟩
    simp only [hn, hp] at hpred
    simpa using hpred
  · rintro ⟨hmem, hall⟩
    refine ⟨hmem, ?_⟩
    rcases hn : lookupNode tax t.id with _ | node
    · simp
    · rcases hp : node.parent with _ | p
      · simp [hp]
      · simpa [hp] using hall node p hn hp

/-- C5 witness: the characterization applied at the counterexample input,
recovering that the parent `inequality` entry is in the output. -/
theorem c5_characterization_witness :
    ({ id := "inequality", name := "Inequality", confidence := Confidence.high,
       source := TopicSource.abstract } : DetectedTopic) ∈
      combineTopicDetections topicTaxonomyIneq
        [("inequality", (Confidence.high, [])), ("mobility", (Confidence.high, []))] [] := by
  refine (c5_topic_suppression_characterization topicTaxonomyIneq
    [("inequality", (Confidence.high, [])), ("mobility", (Confidence.high, []))] [] _).mpr
    ⟨by decide, fun node p hn hp => ?_⟩
  have hlook : lookupNode topicTaxonomyIneq "inequality" = some inequalityNode := by decide
  rw [hlook] at hn
  cases hn
  exact Option.noConfusion hp

theorem topicAffinityStep_first_le (user : ExpandedUserProfile) (w : ScoringWeights)
    (st : ℚ × ℚ × ℚ × List String) (t : DetectedTopic) :
    st.1 ≤ (topicAffinityStep user w st t).1 := by
  rcases t with ⟨tid, tname, tconf, tsrc⟩
  cases tconf <;> unfold topicAffinityStep <;> dsimp only <;> split_ifs <;> linarith

theorem topicAffinityFold_first_le (user : ExpandedUserProfile) (w : ScoringWeights)
    (l : List DetectedTopic) (st : ℚ × ℚ × ℚ × List String) :
    st.1 ≤ (l.foldl (topicAffinityStep user w) st).1 := by
  induction l generalizing st with
  | nil => exact le_refl _
  | cons a l ih => exact le_trans (topicAffinityStep_first_le user w st a) (ih _)

theorem topicAffinityFold_first_ge_one (user : ExpandedUserProfile) (w : ScoringWeights)
    (l : List DetectedTopic) (st : ℚ × ℚ × ℚ × List String) (t : DetectedTopic)
    (hmem : t ∈ l) (hconf : t.confidence = Confidence.high)
    (hdir : user.directTopicIds.contains t.id = true) (hst : 0 ≤ st.1) :
    1 ≤ (l.foldl (topicAffinityStep user w) st).1 := by
  induction l generalizing st with
  | nil => cases hmem
  | cons a l ih =>
    rcases List.mem_cons.mp hmem with rfl | hmem2
    · have hdmem : t.id ∈ user.directTopicIds := List.elem_iff.mp hdir
      have hstep : (topicAffinityStep user w st t).1 = st.1 + 1 := by
        unfold topicAffinityStep
        rw [hconf]
        simp [hdmem]
        norm_num
      have hrest := topicAffinityFold_first_le user w l (topicAffinityStep user w st t)
      rw [hstep] at hrest
      exact le_trans (by linarith) hrest
    · exact ih _ hmem2 (le_trans hst (topicAffinityStep_first_le user w st a))

theorem calculateTopicAffinity_direct (pp : PaperProfile) (user : ExpandedUserProfile)
    (w : ScoringWeights) (hint : user.hasInterests = true) (t : DetectedTopic)
    (hmem : t ∈ pp.topics) (hconf : t.confidence = Confidence.high)
    (hdir : user.directTopicIds.contains t.id = true) :
    (calculateTopicAffinity pp user w).matchType = MatchType.direct := by
  have hge : 1 ≤ (pp.topics.foldl (topicAffinityStep user w) (0, 0, 0, [])).1 :=
    topicAffinityFold_first_ge_one user w pp.topics (0, 0, 0, []) t hmem hconf hdir
      (le_refl 0)
  have hmin : jsMin 1.0 (pp.topics.foldl (topicAffinityStep user w) (0, 0, 0, [])).1 = 1.0 := by
    apply jsMin_eq_left
    calc (1.0 : ℚ) = 1 := by norm_num
    _ ≤ _ := hge
  unfold calculateTopicAffinity
  rw [hint]
  simp only [Bool.not_true, Bool.false_eq_true, if_false]
  rw [hmin]
  rw [if_pos (by norm_num : (1.0 : ℚ) > 0.3)]

/-- C4: for a user profile with at least one interest, if the paper profile
contains a topic that is in the user's direct topic-id set at high
confidence, the direct bucket reaches its cap, the match type is `direct`,
and the discovery bonus is exactly 0. -/
theorem c4_direct_high_topic_zero_discovery (env : Env) (profile : UserProfile)
    (pp : PaperProfile) (paper : Paper) (e : ℚ) (t : DetectedTopic)
    (hi : profile.interests.getD [] ≠ [])
    (hmem : t ∈ pp.topics) (hconf : t.confidence = Confidence.high)
    (hdir : (expandUserProfile env profile).directTopicIds.contains t.id = true) :
    calculateDiscoveryBonus env pp
      (calculateTopicAffinity pp (expandUserProfile env profile) (getWeights e))
      (expandUserProfile env profile) paper (getWeights e) = 0 := by
  have hint : (expandUserProfile env profile).hasInterests = true := by
    have hh : (expandUserProfile env profile).hasInterests =
        !(profile.interests.getD []).isEmpty := rfl
    rw [hh]
    simp [hi]
  have hmt := calculateTopicAffinity_direct pp (expandUserProfile env profile)
    (getWeights e) hint t hmem hconf hdir
  unfold calculateDiscoveryBonus
  rw [hint, hmt]
  simp

/-- C4 witness: the theorem applied to the concrete "Inequality" profile
and a paper profile detecting `inequality` at high confidence. -/
theorem c4_discovery_zero_witness :
    (inequalityProfile.interests.getD [] ≠ []) ∧
    (({ id := "inequality", name := "Inequality", confidence := Confidence.high,
        source := TopicSource.abstract } : DetectedTopic) ∈ inequalityPaperProfile.topics) ∧
    ((expandUserProfile sampleEnv inequalityProfile).directTopicIds.contains "inequality"
      = true) ∧
    calculateDiscoveryBonus sampleEnv inequalityPaperProfile
      (calculateTopicAffinity inequalityPaperProfile
        (expandUserProfile sampleEnv inequalityProfile) (getWeights 0))
      (expandUserProfile sampleEnv inequalityProfile) tier1Paper (getWeights 0) = 0 :=
  ⟨by decide, by decide, by with_unfolding_all rfl,
    c4_direct_high_topic_zero_discovery sampleEnv inequalityProfile inequalityPaperProfile
      tier1Paper 0
      { id := "inequality", name := "Inequality", confidence := Confidence.high,
        source := TopicSource.abstract }
      (by decide) (by decide) rfl (by with_unfolding_all rfl)⟩

theorem mem_sAdd {s : List String} {x y : String} : y ∈ sAdd s x ↔ y ∈ s ∨ y = x := by
  unfold sAdd
  split_ifs with h
  · constructor
    · exact Or.inl
    · rintro (hy | rfl)
      · exact hy
      · exact List.elem_iff.mp h
  · simp

theorem mem_foldl_sAdd {l s : List String} {x : String} (h : x ∈ s) :
    x ∈ l.foldl sAdd s := by
  induction l generalizing s with
  | nil => exact h
  | cons a l ih => exact ih (mem_sAdd.mpr (Or.inl h))

theorem mem_removeAll {s ds : List String} {x : String} :
    x ∈ removeAll s ds ↔ x ∈ s ∧ x ∉ ds := by
  induction ds generalizing s with
  | nil => simp [removeAll]
  | cons d ds ih =>
    have hstep : removeAll s (d :: ds) = removeAll (s.filter (fun y => y != d)) ds := rfl
    rw [hstep, ih]
    simp only [List.mem_filter, bne_iff_ne, List.mem_cons, not_or]
    tauto

theorem expandInterestId_first_subset (env : Env) (dd ad : ℤ)
    (st : List String × List String × List String) (id : String)
    (h : ∀ x, x ∈ st.1 → x ∈ st.2.1) :
    ∀ x, x ∈ (expandInterestId env dd ad st id).1 →
      x ∈ (expandInterestId env dd ad st id).2.1 := by
  intro x hx
  unfold expandInterestId at hx ⊢
  dsimp only at hx ⊢
  rcases mem_sAdd.mp hx with h1 | rfl
  · exact mem_foldl_sAdd (mem_sAdd.mpr (Or.inl (h x h1)))
  · exact mem_foldl_sAdd (mem_sAdd.mpr (Or.inr rfl))

theorem foldl_expandInterestId_subset (env : Env) (dd ad : ℤ) (ids : List String)
    (st : List String × List String × List String)
    (h : ∀ x, x ∈ st.1 → x ∈ st.2.1) :
    ∀ x, x ∈ (ids.foldl (expandInterestId env dd ad) st).1 →
      x ∈ (ids.foldl (expandInterestId env dd ad) st).2.1 := by
  induction ids generalizing st with
  | nil => exact h
  | cons a ids ih => exact ih _ (expandInterestId_first_subset env dd ad st a h)

theorem interestsFold_subset (env : Env) (dd ad : ℤ) (l : List String)
    (st : List String × List String × List String)
    (h : ∀ x, x ∈ st.1 → x ∈ st.2.1) :
    ∀ x, x ∈ (l.foldl (fun st interest =>
        match alistGet? env.interestToTaxonomy interest with
        | none => st
        | some taxonomyIds => taxonomyIds.foldl (expandInterestId env dd ad) st) st).1 →
      x ∈ (l.foldl (fun st interest =>
        match alistGet? env.interestToTaxonomy interest with
        | none => st
        | some taxonomyIds => taxonomyIds.foldl (expandInterestId env dd ad) st) st).2.1 := by
  induction l generalizing st with
  | nil => exact h
  | cons a l ih =>
    simp only [List.foldl_cons]
    apply ih
    cases ha : alistGet? env.interestToTaxonomy a with
    | none => simpa [ha] using h
    | some ids => simpa [ha] using foldl_expandInterestId_subset env dd ad ids st h

theorem rawTopicSets_subset (env : Env) (profile : UserProfile) :
    ∀ x, x ∈ (rawTopicSets env profile).1 → x ∈ (rawTopicSets env profile).2.1 := by
  unfold rawTopicSets
  exact interestsFold_subset env _ _ _ ([], [], [])
    (fun x hx => absurd hx (List.not_mem_nil x))

/-- C9 counterexample: the three topic-id sets are not mutually disjoint —
the interest-expansion loop inserts every direct id into the expanded set
as well, so for the "Inequality" profile the id `inequality` is in both
the direct and the expanded set. -/
theorem c9_counterexample_direct_meets_expanded :
    ((expandUserProfile sampleEnv inequalityProfile).directTopicIds.contains "inequality"
      = true) ∧
    ((expandUserProfile sampleEnv inequalityProfile).expandedTopicIds.contains "inequality"
      = true) :=
  ⟨by with_unfolding_all rfl, by with_unfolding_all rfl⟩

/-- C9 (amended): the adjacent topic-id set is disjoint from both the
direct and the expanded set (direct and expanded ids are deleted from it),
but direct and expanded are not disjoint: every direct id is also an
expanded id. -/
theorem c9_adjacent_disjoint_direct_subset_expanded (env : Env) (profile : UserProfile) :
    ((expandUserProfile env profile).adjacentTopicIds.all (fun x =>
        !((expandUserProfile env profile).directTopicIds.contains x) &&
          !((expandUserProfile env profile).expandedTopicIds.contains x)) = true) ∧
    ((expandUserProfile env profile).directTopicIds.all (fun x =>
        (expandUserProfile env profile).expandedTopicIds.contains x) = true) := by
  have hd : (expandUserProfile env profile).directTopicIds = (rawTopicSets env profile).1 :=
    rfl
  have he : (expandUserProfile env profile).expandedTopicIds =
      (rawTopicSets env profile).2.1 := rfl
  have ha : (expandUserProfile env profile).adjacentTopicIds =
      removeAll (removeAll (rawTopicSets env profile).2.2 (rawTopicSets env profile).1)
        (rawTopicSets env profile).2.1 := rfl
  rw [hd, he, ha]
  constructor
  · rw [List.all_eq_true]
    intro x hx
    have h1 := mem_removeAll.mp hx
    have h2 := mem_removeAll.mp h1.1
    have hcd : (rawTopicSets env profile).1.contains x = false := by
      rw [Bool.eq_false_iff]
      exact fun hc => h2.2 (List.elem_iff.mp hc)
    have hce : (rawTopicSets env profile).2.1.contains x = false := by
      rw [Bool.eq_false_iff]
      exact fun hc => h1.2 (List.elem_iff.mp hc)
    simp [hcd, hce]
    exact ⟨h2.2, h1.2⟩
  · rw [List.all_eq_true]
    intro x hx
    exact List.elem_iff.mpr (rawTopicSets_subset env profile x hx)

end Econvery
